import Mathlib

/-!
Verification development for the SIEMENS physiological-log reader
(bidscoin readphysio.py).  Python strings are embedded as lists of
characters; the two parsing modes of readparsefile and the readphysio
assembler are translated statement by statement from the source.
Errors (raised exceptions: explicit LOGGER.error/raise as well as
NameError, ValueError, TypeError, IndexError raised by the runtime)
are modelled with Except String.
-/

namespace ReadPhysio

/-- Python str embedded as a list of characters. -/
abbrev Str := List Char

/-- The file format version the function expects (module constant). -/
def expectedversion : Str := "EJA_1".toList

/-- Whitespace test used by str.strip / str.split(). -/
def isSpace (c : Char) : Bool := c.isWhitespace

/-- Python str.strip(): remove leading and trailing whitespace. -/
def pyStrip (s : Str) : Str := ((s.dropWhile isSpace).reverse.dropWhile isSpace).reverse

/-- Split a list at every character satisfying p; separators are dropped and
empty chunks are kept, as Python str.split(sep) does for a single-char sep. -/
def splitOnPred (p : Char → Bool) : Str → List Str
  | [] => [[]]
  | c :: cs =>
    match splitOnPred p cs with
    | [] => [[]]
    | h :: t => if p c then [] :: h :: t else (c :: h) :: t

/-- Python s.split(sep) for a one-character separator. -/
def pySplitChar (sep : Char) (s : Str) : List Str := splitOnPred (fun c => c = sep) s

/-- Python s.split() with no argument: split on whitespace runs, drop empties. -/
def pyWhitespaceSplit (s : Str) : List Str := (splitOnPred isSpace s).filter (fun t => ¬ t.isEmpty)

/-- Python s.isdigit() (restricted to ASCII digits, which is what the data uses). -/
def pyIsDigitStr (s : Str) : Bool := !s.isEmpty && s.all (fun c => c.isDigit)

/-- Numeric value of a digit string. -/
def digitsVal (s : Str) : Nat := s.foldl (fun a c => 10 * a + (c.toNat - 48)) 0

/-- Python int(string): strip whitespace, optional sign, decimal digits;
anything else raises ValueError (modelled as none). -/
def pyInt (s : Str) : Option Int :=
  match pyStrip s with
  | '-' :: ds => if pyIsDigitStr ds then some (-(digitsVal ds : Int)) else none
  | '+' :: ds => if pyIsDigitStr ds then some ((digitsVal ds : Int)) else none
  | ds => if pyIsDigitStr ds then some ((digitsVal ds : Int)) else none

/-- line.split('#')[0].strip() : drop a trailing comment, then strip. -/
def stripComment (line : Str) : Str := pyStrip ((pySplitChar '#' line).headD [])

/-- One event of the line grammar shared by both parse modes. -/
inductive LineEvent where
  | assign (key value : Str)
  | dataRow (items : List Str)
  | skip
  | malformedAssign
  deriving DecidableEq

/-- Pad the whitespace-split fields with the literal field "0" so that there
are always exactly 5 columns (source line 125). -/
def padTo5 (items : List Str) : List Str := (items ++ List.replicate 5 ['0']).take 5

/-- Tokenize one (non-empty) raw line: an assignment if the comment-stripped,
trimmed line contains an equals sign (unpacking fails unless the split has
exactly two parts), otherwise a padded 5-column data row, skipped when the
first column is not all digits (source lines 81-129). -/
def lineEvent (line : Str) : LineEvent :=
  let l := stripComment line
  if l.contains '=' then
    match (pySplitChar '=' l).map pyStrip with
    | [k, v] => .assign k v
    | _ => .malformedAssign
  else
    let items := padTo5 (pyWhitespaceSplit l)
    if pyIsDigitStr (items.headD []) then .dataRow items else .skip

/-- The 4-dimensional acquisition timing array: dims (2, nv, ns, ne) stored as
a cell function from (volume, slice, echo) to the (start, finish) pair. -/
structure AcqMap where
  nv : Nat
  ns : Nat
  ne : Nat
  cell : Nat → Nat → Nat → Int × Int

/-- numpy integer indexing into an axis of size n: a negative index wraps once
from the end, anything still out of range is an IndexError (none). -/
def npIdx (n : Nat) (i : Int) : Option Nat :=
  let j := if i < 0 then i + n else i
  if 0 ≤ j ∧ j < (n : Int) then some j.toNat else none

/-- Functional update of one cell of the 4-D array. -/
def updCell (f : Nat → Nat → Nat → Int × Int) (v s e : Nat) (p : Int × Int) :
    Nat → Nat → Nat → Int × Int :=
  fun v' s' e' => if v' = v ∧ s' = s ∧ e' = e then p else f v' s' e'

/-- Python slice-bound normalization for an axis of length n (step 1):
negative bounds count from the end, then everything is clamped to [0, n]. -/
def clampSlice (n : Nat) (i : Int) : Nat :=
  if i < 0 then (if i + n < 0 then 0 else (i + n).toNat) else min i.toNat n

/-- Apply f to every element together with its position (starting at i). -/
def mapIdxFrom {α : Type} (i : Nat) (f : Nat → α → α) : List α → List α
  | [] => []
  | x :: xs => f i x :: mapIdxFrom (i + 1) f xs

/-- Assign the constant v on positions [lo, hi) of a lane. -/
def setRange (lane : List Int) (lo hi : Nat) (v : Int) : List Int :=
  mapIdxFrom 0 (fun i x => if lo ≤ i ∧ i < hi then v else x) lane

/-- Set positions [lo, hi) of a boolean mask to true. -/
def setRangeBool (l : List Bool) (lo hi : Nat) : List Bool :=
  mapIdxFrom 0 (fun i x => if lo ≤ i ∧ i < hi then true else x) l

/-- The local variables of readparsefile.  Unassigned Python locals are none
(referencing them raises NameError); nrechoes is prefilled with 1 (line 61)
and firsttime starts as the function parameter.  nrvolumes is a rational
together with the volFloat flag: after the legacy correction (true division,
line 140) the Python value is a float, which makes the later array-dimension
and range() uses raise TypeError.  corrWarn counts emissions of the legacy
correction warning (line 141). -/
structure PState where
  uuid : Option Str
  sampletime : Option Int
  nrslices : Option Int
  nrvolumes : Option ℚ
  volFloat : Bool
  firsttime : Int
  lasttime : Option Int
  nrechoes : Int
  acq : Option AcqMap
  chan : Option (List (List Int))
  corrWarn : Nat

/-- Initial local-variable state of one readparsefile call. -/
def initState (ft : Int) : PState :=
  { uuid := none
    sampletime := none
    nrslices := none
    nrvolumes := none
    volFloat := false
    firsttime := ft
    lasttime := none
    nrechoes := 1
    acq := none
    chan := none
    corrWarn := 0 }

/-- The LogDataType string of the INFO file. -/
def ACQINFO : Str := "ACQUISITION_INFO".toList

/-- The outcome of comparing an assignment key against the known key names in
the order the source checks them (lines 88-119). -/
inductive KeyTag where
  | kUUID
  | kLogVersion
  | kLogDataType
  | kSampleTime
  | kNumSlices
  | kNumVolumes
  | kFirstTime
  | kLastTime
  | kNumEchoes
  | kOther
  deriving DecidableEq

/-- Classify an assignment key. -/
def keyTag (k : Str) : KeyTag :=
  if k = "UUID".toList then .kUUID
  else if k = "LogVersion".toList then .kLogVersion
  else if k = "LogDataType".toList then .kLogDataType
  else if k = "SampleTime".toList then .kSampleTime
  else if k = "NumSlices".toList then .kNumSlices
  else if k = "NumVolumes".toList then .kNumVolumes
  else if k = "FirstTime".toList then .kFirstTime
  else if k = "LastTime".toList then .kLastTime
  else if k = "NumEchoes".toList then .kNumEchoes
  else .kOther

/-- Handle one assignment line (source lines 88-119).  The keys are checked in
sequence; SampleTime is invalid in an INFO file and the INFO-only keys are
invalid in a channel file; unknown keys are ignored. -/
def doAssign (dt : Str) (st : PState) (k v : Str) : Except String PState :=
  match keyTag k with
  | .kUUID => .ok { st with uuid := some v }
  | .kLogVersion =>
    if v = expectedversion then .ok st else .error "file format not supported"
  | .kLogDataType =>
    if v = dt then .ok st else .error "LogDataType mismatch"
  | .kSampleTime =>
    if dt = ACQINFO then .error "Invalid SampleTime parameter"
    else match pyInt v with
      | some n => .ok { st with sampletime := some n }
      | none => .error "ValueError int"
  | .kNumSlices =>
    if dt = ACQINFO then
      match pyInt v with
      | some n => .ok { st with nrslices := some n }
      | none => .error "ValueError int"
    else .error "Invalid NumSlices parameter"
  | .kNumVolumes =>
    if dt = ACQINFO then
      match pyInt v with
      | some n => .ok { st with nrvolumes := some ((n : ℚ)), volFloat := false }
      | none => .error "ValueError int"
    else .error "Invalid NumVolumes parameter"
  | .kFirstTime =>
    if dt = ACQINFO then
      match pyInt v with
      | some n => .ok { st with firsttime := n }
      | none => .error "ValueError int"
    else .error "Invalid FirstTime parameter"
  | .kLastTime =>
    if dt = ACQINFO then
      match pyInt v with
      | some n => .ok { st with lasttime := some n }
      | none => .error "ValueError int"
    else .error "Invalid LastTime parameter"
  | .kNumEchoes =>
    if dt = ACQINFO then
      match pyInt v with
      | some n => .ok { st with nrechoes := n }
      | none => .error "ValueError int"
    else .error "Invalid NumEchoes parameter"
  | .kOther => .ok st

/-- Parse the echo column and write one (start, finish) pair into the map
(source lines 144-156).  A non-empty echo column is parsed as the echo index
and overwriting a cell that already holds a nonzero pair is the hard
"duplicate timing data" error; an empty echo column reaches the plain
truthiness test of a 2-element numpy slice, which always raises ValueError
(ambiguous truth value) - and it is in fact unreachable because padTo5 fills
missing columns with "0". -/
def writeAcqCell (st : PState) (nv1 : ℚ) (fl : Bool) (cw : Nat) (m : AcqMap)
    (i0 i1 i2 i3 i4 : Str) : Except String PState :=
  match pyInt i0, pyInt i1, pyInt i2, pyInt i3 with
  | some curvol, some curslc, some curstart, some curfinish =>
    match npIdx m.nv curvol, npIdx m.ns curslc with
    | some v, some s =>
      if i4.isEmpty then .error "ValueError ambiguous truth value"
      else
        match pyInt i4 with
        | none => .error "ValueError int"
        | some cureco =>
          match npIdx m.ne cureco with
          | none => .error "IndexError"
          | some e =>
            if (m.cell v s e).1 ≠ 0 ∨ (m.cell v s e).2 ≠ 0 then
              .error "duplicate timing data"
            else
              .ok { st with
                    nrvolumes := some nv1
                    volFloat := fl
                    corrWarn := cw
                    acq := some { m with cell := updCell m.cell v s e (curstart, curfinish) } }
    | _, _ => .error "IndexError"
  | _, _, _, _ => .error "ValueError int"

/-- Allocate the (2, nv, ns, ne) array lazily (source lines 142-143: a float
dimension raises TypeError) and write the row. -/
def acqAlloc (st : PState) (nv1 : ℚ) (fl : Bool) (cw : Nat) (ns0 : Int)
    (i0 i1 i2 i3 i4 : Str) : Except String PState :=
  match st.acq with
  | none =>
    if fl then .error "TypeError float dimension"
    else writeAcqCell st nv1 fl cw
      { nv := nv1.num.toNat
        ns := ns0.toNat
        ne := st.nrechoes.toNat
        cell := fun _ _ _ => (0, 0) } i0 i1 i2 i3 i4
  | some m => writeAcqCell st nv1 fl cw m i0 i1 i2 i3 i4

/-- Handle one ACQUISITION_INFO data row (source lines 132-156): header check,
legacy NumVolumes = 1 correction by true division (the result is a Python
float, recorded in the volFloat flag, and the correction warning is counted),
lazy allocation, then the cell write. -/
def doAcqData (total : Nat) (st : PState) (items : List Str) : Except String PState :=
  match items with
  | [i0, i1, i2, i3, i4] =>
    match st.nrvolumes, st.nrslices with
    | some nv0, some ns0 =>
      if nv0 < 1 ∨ ns0 < 1 ∨ st.nrechoes < 1 then .error "Failed reading ACQINFO header"
      else if nv0 = 1 then
        acqAlloc st (((total : ℚ) - 11) / (((ns0 * st.nrechoes : Int) : ℚ))) true
          (st.corrWarn + 1) ns0 i0 i1 i2 i3 i4
      else
        acqAlloc st nv0 st.volFloat st.corrWarn ns0 i0 i1 i2 i3 i4
    | _, _ => .error "Failed reading ACQINFO header"
  | _ => .error "bad data row"

/-- Number of sub-lanes of a channel file (source lines 164-179). -/
def nlanes (dt : Str) : Nat :=
  if dt = "ECG".toList then 4 else if dt = "EXT".toList then 2 else 1

/-- Valid ECG sub-channel tokens. -/
def ecgTokens : List Str := ["ECG1".toList, "ECG2".toList, "ECG3".toList, "ECG4".toList]

/-- Valid EXT sub-channel tokens. -/
def extTokens : List Str := ["EXT".toList, "EXT2".toList]

/-- Position of a token in a token list (Python list.index). -/
def tokIdx : List Str → Str → Option Nat
  | [], _ => none
  | t :: ts, x => if t = x then some 0 else (tokIdx ts x).map (fun j => j + 1)

/-- Select the lane for a channel-name token: ECG and EXT validate the token
(unknown token is a hard error), RESP/PULS always use lane 0 with no
validation (source lines 164-179). -/
def chanIdx (dt : Str) (tok : Str) : Except String Nat :=
  if dt = "ECG".toList then
    match tokIdx ecgTokens tok with
    | some j => .ok j
    | none => .error "Invalid ECG channel ID"
  else if dt = "EXT".toList then
    match tokIdx extTokens tok with
    | some j => .ok j
    | none => .error "Invalid EXT channel ID"
  else .ok 0

/-- Handle one channel data row (source lines 158-181): relative timestamp,
lazy allocation of the (expectedsamples, nlanes) array, lane selection, then
the numpy slice assignment traces[curstart : curstart + sampletime, chaidx] =
value * ones(sampletime), with Python slice-bound clamping and the numpy
broadcast rule (lengths must agree unless the right side has length 1). -/
def doChanData (dt : Str) (es : Nat) (st : PState) (items : List Str) : Except String PState :=
  match items with
  | [i0, i1, i2, _, _] =>
    match pyInt i0, pyInt i2 with
    | some t0, some curvalue =>
      let curstart := t0 - st.firsttime
      let tr := match st.chan with
        | some tr => tr
        | none => List.replicate (nlanes dt) (List.replicate es (0 : Int))
      match chanIdx dt i1 with
      | .error e => .error e
      | .ok chaidx =>
        match st.sampletime with
        | none => .error "NameError sampletime"
        | some stime =>
          if stime < 0 then .error "ValueError negative dimensions"
          else
            let lo := clampSlice es curstart
            let hi := clampSlice es (curstart + stime)
            if hi - lo = stime.toNat ∨ stime.toNat = 1 then
              .ok { st with chan := some (mapIdxFrom 0
                (fun j lane => if j = chaidx then setRange lane lo hi curvalue else lane) tr) }
            else .error "ValueError broadcast"
    | _, _ => .error "ValueError int"
  | _ => .error "bad data row"

/-- Dispatch one line event (the per-line body of the loop at line 78). -/
def eventStep (dt : Str) (total es : Nat) (st : PState) : LineEvent → Except String PState
  | .assign k v => doAssign dt st k v
  | .dataRow items => if dt = ACQINFO then doAcqData total st items else doChanData dt es st items
  | .skip => .ok st
  | .malformedAssign => .error "ValueError unpack"

/-- Process one raw line. -/
def stepLine (dt : Str) (total es : Nat) (st : PState) (line : Str) : Except String PState :=
  eventStep dt total es st (lineEvent line)

/-- Run the line loop over a list of lines. -/
def runList (dt : Str) (total es : Nat) : PState → List Str → Except String PState
  | st, [] => .ok st
  | st, l :: ls =>
    match stepLine dt total es st l with
    | .error e => .error e
    | .ok st' => runList dt total es st' ls

/-- The loop of line 78: only non-empty raw lines are visited, but the total
line count (used by the legacy correction) counts every line of the file. -/
def runLines (dt : Str) (ls : List Str) (ft : Int) (es : Nat) : Except String PState :=
  runList dt ls.length es (initState ft) (ls.filter (fun l => !l.isEmpty))

/-- What readparsefile returns for an ACQUISITION_INFO file (line 185). -/
structure InfoResult where
  map : AcqMap
  uuid : Str
  nrslices : Int
  nrvolumes : ℚ
  volFloat : Bool
  firsttime : Int
  lasttime : Int
  nrechoes : Int
  corrWarn : Nat

/-- Sum type of the two possible return tuples of readparsefile. -/
inductive ParseOut where
  | info (r : InfoResult)
  | chan (traces : Option (List (List Int))) (uuid : Str)

/-- Build the return tuple of readparsefile from the final local-variable
state (source lines 183-187).  For the INFO type, firsttime is subtracted
from every array cell (line 184, TypeError if no data row ever allocated the
array); names that were never assigned raise NameError when the return tuple
is built. -/
def finishParse (dt : Str) (st : PState) : Except String ParseOut :=
    if dt = ACQINFO then
      match st.acq with
      | none => .error "TypeError None minus int"
      | some m =>
        match st.uuid with
        | none => .error "NameError UUID"
        | some u =>
          match st.nrslices, st.nrvolumes, st.lasttime with
          | some ns0, some nv0, some lt0 =>
            .ok (.info
              { map := { m with cell := fun v s e =>
                  ((m.cell v s e).1 - st.firsttime, (m.cell v s e).2 - st.firsttime) }
                uuid := u
                nrslices := ns0
                nrvolumes := nv0
                volFloat := st.volFloat
                firsttime := st.firsttime
                lasttime := lt0
                nrechoes := st.nrechoes
                corrWarn := st.corrWarn })
          | _, _, _ => .error "NameError"
    else
      match st.uuid with
      | none => .error "NameError UUID"
      | some u => .ok (.chan st.chan u)

/-- readparsefile (source lines 49-187): run the line loop over the buffer,
then build the return tuple. -/
def readparsefile (ls : List Str) (dt : Str) (ft : Int) (es : Nat) : Except String ParseOut :=
  match runLines dt ls ft es with
  | .error e => .error e
  | .ok st => finishParse dt st

/-- The dictionary readphysio returns: UUID, SliceMap and ACQ are always
present, the nine channel-lane keys are optional (absent keys are none). -/
structure Physio where
  uuid : Str
  slicemap : AcqMap
  acq : List Bool
  ecg1 : Option (List Int)
  ecg2 : Option (List Int)
  ecg3 : Option (List Int)
  ecg4 : Option (List Int)
  resp : Option (List Int)
  puls : Option (List Int)
  ext1 : Option (List Int)
  ext2 : Option (List Int)

/-- The logical sub-files handed to readphysio by the source locator: the
INFO buffer plus the four optional channel buffers, each a list of lines. -/
structure PhysioInput where
  info : List Str
  ecg : Option (List Str)
  resp : Option (List Str)
  puls : Option (List Str)
  ext : Option (List Str)

/-- expectedsamples = (lasttime - firsttime + 1) + 8 (source lines 330-331). -/
def esOf (ir : InfoResult) : Nat := (ir.lasttime - ir.firsttime + 1 + 8).toNat

/-- Parse one present channel file and cross-check its UUID against the INFO
UUID (source lines 333-351).  none means the channel file was absent; the
inner option is the traces array, which readparsefile leaves as None when the
file had no data rows. -/
def procChannel (dt : Str) (buf : Option (List Str)) (u1 : Str) (ft : Int) (es : Nat) :
    Except String (Option (Option (List (List Int)))) :=
  match buf with
  | none => .ok none
  | some ls =>
    match readparsefile ls dt ft es with
    | .error e => .error e
    | .ok (.info _) => .error "unexpected info data"
    | .ok (.chan tr u2) => if u1 ≠ u2 then .error "UUID mismatch" else .ok (some tr)

/-- The pruning guard of lines 372-383: an absent channel contributes nothing,
a present channel whose traces are still None raises AttributeError on
.any(), and a present channel with an all-zero array is dropped entirely. -/
def chanEntries (p : Option (Option (List (List Int)))) :
    Except String (Option (List (List Int))) :=
  match p with
  | none => .ok none
  | some none => .error "AttributeError NoneType any"
  | some (some tr) => .ok (if tr.any (fun lane => lane.any (fun x => x ≠ 0)) then some tr else none)

/-- Lane i of a traces array (column i of the numpy array). -/
def laneGet (tr : List (List Int)) (i : Nat) : List Int := tr.getD i []

/-- One optional result entry: the lane is included only when the builtin
sum of its samples is nonzero (the truthiness of sum(trace) on lines
373-383). -/
def laneEntry (act : Option (List (List Int))) (i : Nat) : Option (List Int) :=
  match act with
  | none => none
  | some tr => if (laneGet tr i).sum ≠ 0 then some (laneGet tr i) else none

/-- The (volume, slice, echo) triples visited by the nested loops of lines
362-365, in loop order. -/
def tripleRange (nv ns ne : Nat) : List (Nat × Nat × Nat) :=
  (List.range nv).flatMap (fun v =>
    (List.range ns).flatMap (fun s =>
      (List.range ne).map (fun e => (v, s, e))))

/-- Mark ACQ[start : finish+1] as active for each visited cell; indexing the
slicemap outside its allocated dimensions is an IndexError. -/
def acqLoop (m : AcqMap) (es : Nat) : List (Nat × Nat × Nat) → List Bool → Except String (List Bool)
  | [], acc => .ok acc
  | (v, s, e) :: rest, acc =>
    if v < m.nv ∧ s < m.ns ∧ e < m.ne then
      acqLoop m es rest
        (setRangeBool acc (clampSlice es (m.cell v s e).1) (clampSlice es ((m.cell v s e).2 + 1)))
    else .error "IndexError"

/-- Build the boolean acquisition-active mask (source lines 361-365). -/
def buildACQ (m : AcqMap) (nv ns ne es : Nat) : Except String (List Bool) :=
  acqLoop m es (tripleRange nv ns ne) (List.replicate es false)

/-- readphysio (source lines 231-389), starting after the source locator: at
least one channel buffer must be present; parse INFO; require lasttime >
firsttime; parse each present channel with the UUID cross-check; build the
ACQ mask (range(nrvolumes) raises TypeError when the legacy correction left a
float volume count); prune all-zero channels and assemble the result. -/
def readphysio (inp : PhysioInput) : Except String Physio :=
  if inp.ecg = none ∧ inp.resp = none ∧ inp.puls = none ∧ inp.ext = none then
    .error "No data files found"
  else
    match readparsefile inp.info ACQINFO 0 0 with
    | .error e => .error e
    | .ok (.chan _ _) => .error "unexpected chan data"
    | .ok (.info ir) =>
      if ir.lasttime ≤ ir.firsttime then .error "Last timestamp not greater than first"
      else
        match procChannel "ECG".toList inp.ecg ir.uuid ir.firsttime (esOf ir) with
        | .error e => .error e
        | .ok pE =>
          match procChannel "RESP".toList inp.resp ir.uuid ir.firsttime (esOf ir) with
          | .error e => .error e
          | .ok pR =>
            match procChannel "PULS".toList inp.puls ir.uuid ir.firsttime (esOf ir) with
            | .error e => .error e
            | .ok pP =>
              match procChannel "EXT".toList inp.ext ir.uuid ir.firsttime (esOf ir) with
              | .error e => .error e
              | .ok pX =>
                if ir.volFloat then .error "TypeError range float"
                else
                  match buildACQ ir.map ir.nrvolumes.num.toNat ir.nrslices.toNat
                      ir.nrechoes.toNat (esOf ir) with
                  | .error e => .error e
                  | .ok acqv =>
                    match chanEntries pE, chanEntries pR, chanEntries pP, chanEntries pX with
                    | .ok aE, .ok aR, .ok aP, .ok aX =>
                      .ok { uuid := ir.uuid
                            slicemap := ir.map
                            acq := acqv
                            ecg1 := laneEntry aE 0
                            ecg2 := laneEntry aE 1
                            ecg3 := laneEntry aE 2
                            ecg4 := laneEntry aE 3
                            resp := laneEntry aR 0
                            puls := laneEntry aP 0
                            ext1 := laneEntry aX 0
                            ext2 := laneEntry aX 1 }
                    | _, _, _, _ => .error "AttributeError NoneType any"

/-! ### Observation helpers and named channels/lanes -/

/-- Did the computation return normally? -/
def exOk {α : Type} (e : Except String α) : Bool :=
  match e with
  | .ok _ => true
  | .error _ => false

/-- The (start, finish) pair of one slicemap cell of an INFO parse. -/
def infoCell (e : Except String ParseOut) (v s q : Nat) : Option (Int × Int) :=
  match e with
  | .ok (.info r) => some (r.map.cell v s q)
  | _ => none

/-- The firsttime value returned by an INFO parse. -/
def infoFirsttime (e : Except String ParseOut) : Option Int :=
  match e with
  | .ok (.info r) => some r.firsttime
  | _ => none

/-- The number of legacy-correction warnings emitted by an INFO parse. -/
def infoCorrWarn (e : Except String ParseOut) : Option Nat :=
  match e with
  | .ok (.info r) => some r.corrWarn
  | _ => none

/-- One sample of the reconstructed traces of a channel parse. -/
def chanTraceAt (e : Except String ParseOut) (lane tick : Nat) : Option Int :=
  match e with
  | .ok (.chan (some tr) _) => some ((laneGet tr lane).getD tick 0)
  | _ => none

/-- The four channel log files. -/
inductive SrcChan where
  | ecg
  | resp
  | puls
  | ext
  deriving DecidableEq

/-- The LogDataType string of a channel. -/
def chanNameC : SrcChan → Str
  | .ecg => "ECG".toList
  | .resp => "RESP".toList
  | .puls => "PULS".toList
  | .ext => "EXT".toList

/-- The buffer of a channel within a readphysio input. -/
def chanBufC (inp : PhysioInput) : SrcChan → Option (List Str)
  | .ecg => inp.ecg
  | .resp => inp.resp
  | .puls => inp.puls
  | .ext => inp.ext

/-- The nine optional channel-lane keys of the result record. -/
inductive Lane where
  | ecg1
  | ecg2
  | ecg3
  | ecg4
  | resp
  | puls
  | ext1
  | ext2
  deriving DecidableEq

/-- The channel file a lane comes from. -/
def laneChan : Lane → SrcChan
  | .ecg1 => .ecg
  | .ecg2 => .ecg
  | .ecg3 => .ecg
  | .ecg4 => .ecg
  | .resp => .resp
  | .puls => .puls
  | .ext1 => .ext
  | .ext2 => .ext

/-- The column of a lane within its channel's traces array. -/
def laneIdx : Lane → Nat
  | .ecg1 => 0
  | .ecg2 => 1
  | .ecg3 => 2
  | .ecg4 => 3
  | .resp => 0
  | .puls => 0
  | .ext1 => 0
  | .ext2 => 1

/-- The entry of the result record belonging to a lane. -/
def resultLane (r : Physio) : Lane → Option (List Int)
  | .ecg1 => r.ecg1
  | .ecg2 => r.ecg2
  | .ecg3 => r.ecg3
  | .ecg4 => r.ecg4
  | .resp => r.resp
  | .puls => r.puls
  | .ext1 => r.ext1
  | .ext2 => r.ext2

/-- One lane entry of a readphysio result. -/
def physioLane (e : Except String Physio) (x : Lane) : Option (Option (List Int)) :=
  match e with
  | .ok r => some (resultLane r x)
  | _ => none

/-- Convert a list of string literals to a buffer of lines. -/
def strLines (ss : List String) : List Str := ss.map String.toList

/-- The error message of a failed computation. -/
def exErr {α : Type} (e : Except String α) : Option String :=
  match e with
  | .ok _ => none
  | .error s => some s

end ReadPhysio

namespace ReadPhysio

/-! ### Concrete log buffers used by the individual claims -/

/-- INFO buffer with two data rows that write the same (0,0,0) cell, both
with an explicit echo column of 0 and a nonzero first write. -/
def c2info : List Str := strLines [
  "UUID = TEST",
  "LogVersion = EJA_1",
  "LogDataType = ACQUISITION_INFO",
  "NumSlices = 1",
  "NumVolumes = 2",
  "NumEchoes = 1",
  "FirstTime = 100",
  "LastTime = 109",
  "0 0 100 105",
  "0 0 100 107"]

/-- 15-line INFO buffer with NumSlices = 4, NumVolumes = 1, NumEchoes = 1 and
a data block of 4 rows: the legacy-correction scenario of the spec. -/
def c3info : List Str := strLines [
  "UUID = TEST",
  "LogVersion = EJA_1",
  "LogDataType = ACQUISITION_INFO",
  "NumSlices = 4",
  "NumVolumes = 1",
  "NumEchoes = 1",
  "FirstTime = 0",
  "LastTime = 9",
  "",
  "",
  "VOLUME SLICE ACQ_START_TICS ACQ_FINISH_TICS ECHO",
  "0 0 1 2 0",
  "0 1 1 2 0",
  "0 2 1 2 0",
  "0 3 1 2 0"]

/-- INFO buffer declaring 2 volumes of which only (0,0,0) is ever written;
FirstTime is 100, so the untouched cell is normalized to (-100, -100). -/
def c4bad : List Str := strLines [
  "UUID = TEST",
  "LogVersion = EJA_1",
  "LogDataType = ACQUISITION_INFO",
  "NumSlices = 1",
  "NumVolumes = 2",
  "NumEchoes = 1",
  "FirstTime = 100",
  "LastTime = 109",
  "0 0 100 105"]

/-- INFO buffer whose data rows all lie inside [FirstTime, LastTime] with
start before finish - the well-formed case of the amended C4. -/
def c4good : List Str := strLines [
  "UUID = TEST",
  "LogVersion = EJA_1",
  "LogDataType = ACQUISITION_INFO",
  "NumSlices = 1",
  "NumVolumes = 2",
  "NumEchoes = 1",
  "FirstTime = 100",
  "LastTime = 109",
  "0 0 100 105",
  "1 0 106 109"]

/-- INFO buffer with every required key except FirstTime. -/
def c5noft : List Str := strLines [
  "UUID = TEST",
  "LogVersion = EJA_1",
  "LogDataType = ACQUISITION_INFO",
  "NumSlices = 1",
  "NumVolumes = 2",
  "NumEchoes = 1",
  "LastTime = 9",
  "0 0 3 4 0"]

/-- INFO buffer with every required key except UUID. -/
def c5nouuid : List Str := strLines [
  "LogVersion = EJA_1",
  "LogDataType = ACQUISITION_INFO",
  "NumSlices = 1",
  "NumVolumes = 2",
  "NumEchoes = 1",
  "FirstTime = 0",
  "LastTime = 9",
  "0 0 3 4 0"]

/-- Valid INFO buffer plus one assignment line whose value itself contains a
further equals sign. -/
def c6bad : List Str := strLines [
  "UUID = TEST",
  "LogVersion = EJA_1",
  "LogDataType = ACQUISITION_INFO",
  "NumSlices = 1",
  "NumVolumes = 2",
  "NumEchoes = 1",
  "FirstTime = 0",
  "LastTime = 9",
  "Extra = a=b",
  "0 0 3 4 0"]

/-- The INFO buffer of the end-to-end spec example (NumSlices = 1,
NumVolumes = 1, NumEchoes = 1, FirstTime = 100, LastTime = 109, one data
row), padded to 12 total lines so the legacy correction computes 1. -/
def c8info : List Str := strLines [
  "UUID = TEST",
  "LogVersion = EJA_1",
  "LogDataType = ACQUISITION_INFO",
  "NumSlices = 1",
  "NumVolumes = 1",
  "NumEchoes = 1",
  "FirstTime = 100",
  "LastTime = 109",
  "",
  "",
  "VOLUME SLICE ACQ_START_TICS ACQ_FINISH_TICS ECHO",
  "0 0 100 105"]

/-- A matching PULS channel buffer for the end-to-end example. -/
def c8puls : List Str := strLines [
  "UUID = TEST",
  "LogVersion = EJA_1",
  "LogDataType = PULS",
  "SampleTime = 1",
  "100 PULS 42"]

/-- INFO buffer for a successful full run (2 volumes, only cell (0,0,0)
written within bounds). -/
def c1info : List Str := strLines [
  "UUID = TEST",
  "LogVersion = EJA_1",
  "LogDataType = ACQUISITION_INFO",
  "NumSlices = 1",
  "NumVolumes = 2",
  "NumEchoes = 1",
  "FirstTime = 100",
  "LastTime = 109",
  "0 0 100 105"]

/-- PULS buffer whose lane holds the nonzero samples +5 and -5, which cancel
in the sum. -/
def c1puls : List Str := strLines [
  "UUID = TEST",
  "LogVersion = EJA_1",
  "LogDataType = PULS",
  "SampleTime = 1",
  "100 PULS 5",
  "101 PULS -5"]

/-- The full input of the C1 counterexample run. -/
def c1inp : PhysioInput := ⟨c1info, none, none, some c1puls, none⟩

/-- ECG buffer carrying the UUID OTHER while the INFO buffer carries TEST. -/
def c9ecg : List Str := strLines [
  "UUID = OTHER",
  "LogVersion = EJA_1",
  "LogDataType = ECG",
  "SampleTime = 1",
  "100 ECG1 7"]

/-- The full input of the C9 witness run. -/
def c9inp : PhysioInput := ⟨c1info, some c9ecg, none, none, none⟩

/-- INFO buffer whose first row writes (0, 0) - a pair the nonzero-based
duplicate test cannot see - and whose second row rewrites the same cell. -/
def c10info : List Str := strLines [
  "UUID = TEST",
  "LogVersion = EJA_1",
  "LogDataType = ACQUISITION_INFO",
  "NumSlices = 1",
  "NumVolumes = 2",
  "NumEchoes = 1",
  "FirstTime = 0",
  "LastTime = 9",
  "0 0 0 0 0",
  "0 0 5 6 0"]

/-- ECG buffer for the C7 witness: one sample at raw tick 102 on lane ECG2
with value 7, held for SampleTime = 3 ticks. -/
def c7ecg : List Str := strLines [
  "UUID = TEST",
  "LogVersion = EJA_1",
  "LogDataType = ECG",
  "SampleTime = 3",
  "102 ECG2 7"]

end ReadPhysio

namespace ReadPhysio

/-! ### Concrete (closed) claim theorems -/

/-- C10: duplicate detection for an explicit echo index only tests whether the
target cell holds a nonzero pair, so after an earlier row wrote (0, 0) a
later row targeting the same cell does not raise the duplicate-timing-data
error and silently overwrites it: on c10info the parse succeeds and cell
(0,0,0) ends as (5, 6), the second row's pair. -/
theorem c10_zero_pair_overwrite :
    exOk (readparsefile c10info ACQINFO 0 0) = true ∧
    infoCell (readparsefile c10info ACQINFO 0 0) 0 0 0 = some (5, 6) :=
  ⟨rfl, rfl⟩

/-- C2 (failing-input evaluation): two ACQUISITION_INFO rows for the same
(vol 0, slc 0) cell with the echo column missing are padded to the literal
"0", take the explicit-echo branch, and the second row aborts with the hard
duplicate-timing-data error instead of the warning the claim describes. -/
theorem c2_missing_echo_duplicate_raises :
    exErr (readparsefile c2info ACQINFO 0 0) = some "duplicate timing data" :=
  rfl

/-- C3 (failing-input evaluation): on the 15-line buffer with NumSlices = 4,
NumVolumes = 1, NumEchoes = 1 the legacy correction computes the volume count
by true division (a Python float) and the array allocation with that float
dimension raises TypeError, so the parse crashes instead of continuing with
the corrected count 1. -/
theorem c3_legacy_correction_crashes :
    exErr (readparsefile c3info ACQINFO 0 0) = some "TypeError float dimension" :=
  rfl

/-- C8 (failing-input evaluation): the end-to-end example input declares
NumVolumes = 1, so the legacy correction fires, the volume count becomes a
float and the INFO array allocation raises TypeError: readphysio crashes
instead of producing the claimed mask and map. -/
theorem c8_end_to_end_crashes :
    exErr (readphysio ⟨c8info, none, none, some c8puls, none⟩) =
      some "TypeError float dimension" :=
  rfl

/-- C4 (counterexample): after the final FirstTime subtraction the cell
(1,0,0) of c4bad - declared by NumVolumes = 2 but never written by a data
row - holds (-100, -100), which lies below 0, so not every value of the
returned AcquisitionMap lies in [0, LastTime - FirstTime]. -/
theorem c4_counterexample :
    infoCell (readparsefile c4bad ACQINFO 0 0) 1 0 0 = some (-100, -100) ∧
    ¬ (0 ≤ (-100 : Int)) :=
  ⟨rfl, by decide⟩

/-- C5 (counterexample): the INFO buffer c5noft lacks the required key
FirstTime, yet the parse succeeds and returns the caller-supplied default
firsttime = 0 instead of aborting. -/
theorem c5_counterexample :
    exOk (readparsefile c5noft ACQINFO 0 0) = true ∧
    infoFirsttime (readparsefile c5noft ACQINFO 0 0) = some 0 :=
  ⟨rfl, rfl⟩

/-- C6 (counterexample): a line whose value part contains a further equals
sign does not yield a (key, value) pair - the two-way unpacking of the split
fails, and a buffer containing such a line aborts the whole parse. -/
theorem c6_counterexample :
    lineEvent ("Extra = a=b".toList) = LineEvent.malformedAssign ∧
    exErr (readparsefile c6bad ACQINFO 0 0) = some "ValueError unpack" :=
  ⟨rfl, rfl⟩

/-- C1 (counterexample): in the successful run on c1inp the PULS channel is
present and its reconstructed lane holds the nonzero sample 5 at tick 0, yet
the result record contains no PULS entry, because the lane's samples +5 and
-5 cancel in the sum used by the pruning guard. -/
theorem c1_counterexample :
    physioLane (readphysio c1inp) Lane.puls = some none ∧
    chanTraceAt (readparsefile c1puls ("PULS".toList) 100 18) 0 0 = some 5 ∧
    chanTraceAt (readparsefile c1puls ("PULS".toList) 100 18) 0 1 = some (-5) :=
  ⟨rfl, rfl, rfl⟩

end ReadPhysio

namespace ReadPhysio

/-! ### C6: the assignment grammar on lines with exactly one equals sign -/

/-- Number of occurrences of a character in a string. -/
def charCount (sep : Char) : Str → Nat
  | [] => 0
  | c :: cs => (if c = sep then 1 else 0) + charCount sep cs

/-- The characters before the first occurrence of sep. -/
def beforeChar (sep : Char) : Str → Str
  | [] => []
  | c :: cs => if c = sep then [] else c :: beforeChar sep cs

/-- The characters after the first occurrence of sep. -/
def afterChar (sep : Char) : Str → Str
  | [] => []
  | c :: cs => if c = sep then cs else afterChar sep cs

theorem splitChar_of_count_zero (sep : Char) :
    ∀ s : Str, charCount sep s = 0 → pySplitChar sep s = [s] := by
  intro s
  induction s with
  | nil => intro _; rfl
  | cons c cs ih =>
    intro h
    rw [charCount] at h
    by_cases hc : c = sep
    · simp [hc] at h
    · simp only [if_neg hc, Nat.zero_add] at h
      have ihs := ih h
      simp only [pySplitChar, splitOnPred] at ihs ⊢
      rw [ihs]
      simp [hc]

theorem splitChar_of_count_one (sep : Char) :
    ∀ s : Str, charCount sep s = 1 →
      pySplitChar sep s = [beforeChar sep s, afterChar sep s] ∧ s.contains sep = true := by
  intro s
  induction s with
  | nil => intro h; simp [charCount] at h
  | cons c cs ih =>
    intro h
    rw [charCount] at h
    by_cases hc : c = sep
    · simp only [if_pos hc, Nat.add_comm] at h
      have hz : charCount sep cs = 0 := by omega
      have hcs := splitChar_of_count_zero sep cs hz
      simp only [pySplitChar, splitOnPred] at hcs ⊢
      rw [hcs]
      subst hc
      constructor
      · simp [beforeChar, afterChar]
      · simp [List.contains]
    · simp only [if_neg hc, Nat.zero_add] at h
      obtain ⟨h1, h2⟩ := ih h
      simp only [pySplitChar, splitOnPred] at h1 ⊢
      rw [h1]
      constructor
      · simp [hc, beforeChar, afterChar]
      · simp only [List.contains] at h2 ⊢
        simp only [List.elem_cons]
        have hm : sep ∈ cs := by simpa using h2
        simp only [hm, List.elem_eq_true_of_mem]
        cases hbe : sep == c <;> simp

/-- C6 (amended theorem): for every line whose comment-stripped, trimmed text
contains exactly one equals sign, the grammar produces exactly one assignment
event whose key and value are the whitespace-trimmed parts before and after
that equals sign.  (A line with two or more equals signs instead aborts the
parse, as the counterexample shows.) -/
theorem c6_single_equals_assign (line : Str)
    (h : charCount '=' (stripComment line) = 1) :
    lineEvent line = .assign (pyStrip (beforeChar '=' (stripComment line)))
      (pyStrip (afterChar '=' (stripComment line))) := by
  obtain ⟨hsplit, hmem⟩ := splitChar_of_count_one '=' (stripComment line) h
  simp only [lineEvent]
  rw [hmem]
  simp only [if_true, hsplit, List.map]

/-- C6 (witness): the theorem applied to the line "UUID = TEST". -/
theorem c6_single_equals_assign_witness :
    lineEvent ("UUID = TEST".toList) =
      .assign (pyStrip (beforeChar '=' (stripComment ("UUID = TEST".toList))))
        (pyStrip (afterChar '=' (stripComment ("UUID = TEST".toList)))) :=
  c6_single_equals_assign ("UUID = TEST".toList) (by decide)

end ReadPhysio

namespace ReadPhysio

/-! ### C5: absence of required INFO keys -/

/-- The key assigned by a line, if its event is an assignment. -/
def assignKeyOf (l : Str) : Option Str :=
  match lineEvent l with
  | .assign k _ => some k
  | _ => none

/-- The four required INFO keys whose absence makes the parse fail (FirstTime
is absent from this list: see the C5 counterexample). -/
def requiredInfoKeys : List Str :=
  ["UUID".toList, "NumSlices".toList, "NumVolumes".toList, "LastTime".toList]

theorem keyTag_spec {k : Str} :
    (keyTag k = .kUUID → k = "UUID".toList) ∧
    (keyTag k = .kNumSlices → k = "NumSlices".toList) ∧
    (keyTag k = .kNumVolumes → k = "NumVolumes".toList) ∧
    (keyTag k = .kLastTime → k = "LastTime".toList) := by
  unfold keyTag
  split_ifs <;> simp_all

theorem doAssign_pres {dt : Str} {st : PState} {k v : Str} {st' : PState}
    (h : doAssign dt st k v = .ok st') :
    (¬ k = "UUID".toList → st'.uuid = st.uuid) ∧
    (¬ k = "NumSlices".toList → st'.nrslices = st.nrslices) ∧
    (¬ k = "NumVolumes".toList → st'.nrvolumes = st.nrvolumes) ∧
    (¬ k = "LastTime".toList → st'.lasttime = st.lasttime) := by
  unfold doAssign at h
  cases ht : keyTag k <;> simp only [ht] at h
  all_goals repeat' split at h
  all_goals cases h
  all_goals refine ⟨?_, ?_, ?_, ?_⟩ <;> intro hk
  all_goals first
    | rfl
    | exact absurd (keyTag_spec.1 ht) hk
    | exact absurd (keyTag_spec.2.1 ht) hk
    | exact absurd (keyTag_spec.2.2.1 ht) hk
    | exact absurd (keyTag_spec.2.2.2 ht) hk

theorem writeAcqCell_meta {st : PState} {nv1 : ℚ} {fl : Bool} {cw : Nat} {m : AcqMap}
    {i0 i1 i2 i3 i4 : Str} {st' : PState}
    (h : writeAcqCell st nv1 fl cw m i0 i1 i2 i3 i4 = .ok st') :
    st'.uuid = st.uuid ∧ st'.lasttime = st.lasttime ∧ st'.nrslices = st.nrslices := by
  unfold writeAcqCell at h
  repeat' split at h
  all_goals cases h
  exact ⟨rfl, rfl, rfl⟩

theorem acqAlloc_meta {st : PState} {nv1 : ℚ} {fl : Bool} {cw : Nat} {ns0 : Int}
    {i0 i1 i2 i3 i4 : Str} {st' : PState}
    (h : acqAlloc st nv1 fl cw ns0 i0 i1 i2 i3 i4 = .ok st') :
    st'.uuid = st.uuid ∧ st'.lasttime = st.lasttime ∧ st'.nrslices = st.nrslices := by
  unfold acqAlloc at h
  repeat' split at h
  all_goals first
    | cases h
    | exact writeAcqCell_meta h

theorem doAcqData_meta {total : Nat} {st : PState} {items : List Str} {st' : PState}
    (h : doAcqData total st items = .ok st') :
    st'.uuid = st.uuid ∧ st'.lasttime = st.lasttime ∧ st'.nrslices = st.nrslices := by
  unfold doAcqData at h
  repeat' split at h
  all_goals first
    | cases h
    | exact acqAlloc_meta h

theorem doAcqData_nv_none {total : Nat} {st : PState} {items : List Str} {st' : PState}
    (h : doAcqData total st items = .ok st') (hn : st.nrvolumes = none) :
    st'.nrvolumes = none := by
  unfold doAcqData at h
  repeat' split at h
  all_goals first
    | cases h
    | simp_all

/-- Invariant preservation along the line loop. -/
theorem runList_inv {P : PState → Prop} {Q : Str → Prop} {dt : Str} {total es : Nat} :
    ∀ (ls : List Str) (st st' : PState), (∀ l ∈ ls, Q l) →
      (∀ s l s', Q l → stepLine dt total es s l = .ok s' → P s → P s') →
      P st → runList dt total es st ls = .ok st' → P st' := by
  intro ls
  induction ls with
  | nil =>
    intro st st' _ _ hP h
    simp only [runList] at h
    cases h
    exact hP
  | cons l rest ih =>
    intro st st' hQ hstep hP h
    simp only [runList] at h
    cases hs : stepLine dt total es st l with
    | error e => rw [hs] at h; cases h
    | ok st2 =>
      rw [hs] at h
      exact ih st2 st' (fun x hx => hQ x (List.mem_cons_of_mem _ hx)) hstep
        (hstep st l st2 (hQ l (List.mem_cons_self _ _)) hs hP) h

theorem finishParse_info_none {st : PState}
    (hf : st.uuid = none ∨ st.nrslices = none ∨ st.nrvolumes = none ∨ st.lasttime = none) :
    exOk (finishParse ACQINFO st) = false := by
  unfold finishParse
  rw [if_pos rfl]
  repeat' split
  all_goals first
    | rfl
    | (rcases hf with h | h | h | h <;> simp_all)

end ReadPhysio

namespace ReadPhysio

/-- C5 (amended theorem): if any one of UUID, NumSlices, NumVolumes or
LastTime is never assigned in the buffer, parsing it as ACQUISITION_INFO
fails (either at the first data row or when the return tuple is built); the
required key FirstTime is NOT in this list - its absence silently keeps the
caller-passed default, as the counterexample shows. -/
theorem c5_required_key_absent (K : Str) (hK : K ∈ requiredInfoKeys) (ls : List Str)
    (habs : ∀ l ∈ ls, assignKeyOf l ≠ some K) :
    exOk (readparsefile ls ACQINFO 0 0) = false := by
  cases hrun : runLines ACQINFO ls 0 0 with
  | error e => unfold readparsefile; rw [hrun]; rfl
  | ok st =>
    unfold readparsefile
    rw [hrun]
    apply finishParse_info_none
    have hQ : ∀ l ∈ ls.filter (fun l => !l.isEmpty), assignKeyOf l ≠ some K :=
      fun l hl => habs l (List.mem_of_mem_filter hl)
    unfold runLines at hrun
    simp only [requiredInfoKeys, List.mem_cons, List.mem_singleton, List.not_mem_nil,
      or_false] at hK
    rcases hK with h | h | h | h <;> subst h
    · left
      refine @runList_inv (fun s => s.uuid = none) (fun l => assignKeyOf l ≠ some ("UUID".toList))
        ACQINFO ls.length 0 _ _ _ hQ ?_ rfl hrun
      intro s l s' hQl hs hP
      unfold stepLine at hs
      cases he : lineEvent l with
      | assign k v =>
        rw [he] at hs
        simp only [eventStep] at hs
        have hkK : ¬ k = "UUID".toList := fun hkk => hQl (by simp [assignKeyOf, he, hkk])
        rw [(doAssign_pres hs).1 hkK]
        exact hP
      | dataRow items =>
        rw [he] at hs
        simp only [eventStep, if_pos rfl] at hs
        rw [(doAcqData_meta hs).1]
        exact hP
      | skip => rw [he] at hs; simp only [eventStep] at hs; cases hs; exact hP
      | malformedAssign => rw [he] at hs; simp only [eventStep] at hs; cases hs
    · right; left
      refine @runList_inv (fun s => s.nrslices = none)
        (fun l => assignKeyOf l ≠ some ("NumSlices".toList))
        ACQINFO ls.length 0 _ _ _ hQ ?_ rfl hrun
      intro s l s' hQl hs hP
      unfold stepLine at hs
      cases he : lineEvent l with
      | assign k v =>
        rw [he] at hs
        simp only [eventStep] at hs
        have hkK : ¬ k = "NumSlices".toList := fun hkk => hQl (by simp [assignKeyOf, he, hkk])
        rw [(doAssign_pres hs).2.1 hkK]
        exact hP
      | dataRow items =>
        rw [he] at hs
        simp only [eventStep, if_pos rfl] at hs
        rw [(doAcqData_meta hs).2.2]
        exact hP
      | skip => rw [he] at hs; simp only [eventStep] at hs; cases hs; exact hP
      | malformedAssign => rw [he] at hs; simp only [eventStep] at hs; cases hs
    · right; right; left
      refine @runList_inv (fun s => s.nrvolumes = none)
        (fun l => assignKeyOf l ≠ some ("NumVolumes".toList))
        ACQINFO ls.length 0 _ _ _ hQ ?_ rfl hrun
      intro s l s' hQl hs hP
      unfold stepLine at hs
      cases he : lineEvent l with
      | assign k v =>
        rw [he] at hs
        simp only [eventStep] at hs
        have hkK : ¬ k = "NumVolumes".toList := fun hkk => hQl (by simp [assignKeyOf, he, hkk])
        rw [(doAssign_pres hs).2.2.1 hkK]
        exact hP
      | dataRow items =>
        rw [he] at hs
        simp only [eventStep, if_pos rfl] at hs
        exact doAcqData_nv_none hs hP
      | skip => rw [he] at hs; simp only [eventStep] at hs; cases hs; exact hP
      | malformedAssign => rw [he] at hs; simp only [eventStep] at hs; cases hs
    · right; right; right
      refine @runList_inv (fun s => s.lasttime = none)
        (fun l => assignKeyOf l ≠ some ("LastTime".toList))
        ACQINFO ls.length 0 _ _ _ hQ ?_ rfl hrun
      intro s l s' hQl hs hP
      unfold stepLine at hs
      cases he : lineEvent l with
      | assign k v =>
        rw [he] at hs
        simp only [eventStep] at hs
        have hkK : ¬ k = "LastTime".toList := fun hkk => hQl (by simp [assignKeyOf, he, hkk])
        rw [(doAssign_pres hs).2.2.2 hkK]
        exact hP
      | dataRow items =>
        rw [he] at hs
        simp only [eventStep, if_pos rfl] at hs
        rw [(doAcqData_meta hs).2.1]
        exact hP
      | skip => rw [he] at hs; simp only [eventStep] at hs; cases hs; exact hP
      | malformedAssign => rw [he] at hs; simp only [eventStep] at hs; cases hs

/-- C5 (witness): the theorem applied to the concrete buffer lacking UUID. -/
theorem c5_required_key_absent_witness :
    exOk (readparsefile c5nouuid ACQINFO 0 0) = false :=
  c5_required_key_absent ("UUID".toList) (by decide) c5nouuid (by decide)

end ReadPhysio

namespace ReadPhysio

/-! ### C4: bounds of the returned AcquisitionMap -/

/-- A data row is within bounds when its start and finish fields parse and
satisfy F less-or-equal start less-or-equal finish less-or-equal L; non-data
lines are unconstrained. -/
def rowOk (F L : Int) (l : Str) : Bool :=
  match lineEvent l with
  | .dataRow its =>
    match pyInt (its.getD 2 []), pyInt (its.getD 3 []) with
    | some cs, some fs => decide (F ≤ cs ∧ cs ≤ fs ∧ fs ≤ L)
    | _, _ => false
  | _ => true

/-- A raw map cell is either still the initial (0, 0) or holds an in-bounds
ordered pair. -/
def cellOk (F L : Int) (p : Int × Int) : Prop :=
  p = (0, 0) ∨ (F ≤ p.1 ∧ p.1 ≤ p.2 ∧ p.2 ≤ L)

theorem writeAcqCell_cells {F L : Int} {st : PState} {nv1 : ℚ} {fl : Bool} {cw : Nat}
    {m : AcqMap} {i0 i1 i2 i3 i4 : Str} {st' : PState}
    (h : writeAcqCell st nv1 fl cw m i0 i1 i2 i3 i4 = .ok st')
    (hm : ∀ v s e, cellOk F L (m.cell v s e))
    (hrow : ∀ cs fs, pyInt i2 = some cs → pyInt i3 = some fs → F ≤ cs ∧ cs ≤ fs ∧ fs ≤ L) :
    ∀ m', st'.acq = some m' → ∀ v s e, cellOk F L (m'.cell v s e) := by
  unfold writeAcqCell at h
  repeat' split at h
  all_goals cases h
  intro m' hm' v s e
  cases hm'
  simp only [updCell]
  split
  · exact Or.inr (hrow _ _ (by assumption) (by assumption))
  · exact hm v s e

theorem acqAlloc_cells {F L : Int} {st : PState} {nv1 : ℚ} {fl : Bool} {cw : Nat} {ns0 : Int}
    {i0 i1 i2 i3 i4 : Str} {st' : PState}
    (h : acqAlloc st nv1 fl cw ns0 i0 i1 i2 i3 i4 = .ok st')
    (hst : ∀ m, st.acq = some m → ∀ v s e, cellOk F L (m.cell v s e))
    (hrow : ∀ cs fs, pyInt i2 = some cs → pyInt i3 = some fs → F ≤ cs ∧ cs ≤ fs ∧ fs ≤ L) :
    ∀ m', st'.acq = some m' → ∀ v s e, cellOk F L (m'.cell v s e) := by
  unfold acqAlloc at h
  cases hacq : st.acq with
  | none =>
    simp only [hacq] at h
    by_cases hfl : fl = true
    · rw [if_pos hfl] at h; cases h
    · rw [if_neg hfl] at h
      exact writeAcqCell_cells h (fun v s e => Or.inl rfl) hrow
  | some m =>
    simp only [hacq] at h
    exact writeAcqCell_cells h (hst m hacq) hrow

theorem doAcqData_cells {F L : Int} {total : Nat} {st : PState} {items : List Str} {st' : PState}
    (h : doAcqData total st items = .ok st')
    (hst : ∀ m, st.acq = some m → ∀ v s e, cellOk F L (m.cell v s e))
    (hrow : ∀ cs fs, pyInt (items.getD 2 []) = some cs → pyInt (items.getD 3 []) = some fs →
      F ≤ cs ∧ cs ≤ fs ∧ fs ≤ L) :
    ∀ m', st'.acq = some m' → ∀ v s e, cellOk F L (m'.cell v s e) := by
  unfold doAcqData at h
  repeat' split at h
  all_goals first
    | cases h
    | exact acqAlloc_cells h hst (fun cs fs h2 h3 => hrow cs fs h2 h3)

theorem doAssign_acq {dt : Str} {st : PState} {k v : Str} {st' : PState}
    (h : doAssign dt st k v = .ok st') : st'.acq = st.acq := by
  unfold doAssign at h
  cases ht : keyTag k <;> simp only [ht] at h
  all_goals repeat' split at h
  all_goals cases h
  all_goals rfl

end ReadPhysio

namespace ReadPhysio

theorem readparsefile_info_inv {ls : List Str} {ft : Int} {es : Nat} {r : InfoResult}
    (h : readparsefile ls ACQINFO ft es = .ok (.info r)) :
    ∃ st m, runLines ACQINFO ls ft es = .ok st ∧ st.acq = some m ∧
      r.firsttime = st.firsttime ∧ st.lasttime = some r.lasttime ∧
      (∀ v s e, r.map.cell v s e =
        ((m.cell v s e).1 - st.firsttime, (m.cell v s e).2 - st.firsttime)) := by
  cases hrun : runLines ACQINFO ls ft es with
  | error e => unfold readparsefile at h; rw [hrun] at h; cases h
  | ok st =>
    have h2 : finishParse ACQINFO st = .ok (.info r) := by
      unfold readparsefile at h; rw [hrun] at h; exact h
    unfold finishParse at h2
    rw [if_pos rfl] at h2
    repeat' split at h2
    all_goals cases h2
    refine ⟨st, _, rfl, by assumption, rfl, ?_, fun v s e => rfl⟩
    exact (by assumption : st.lasttime = some _)

end ReadPhysio

namespace ReadPhysio

/-- C4 (amended theorem): for an accepted INFO buffer all of whose data rows
carry start/finish timestamps t with FirstTime at most start, start at most
finish and finish at most LastTime, every cell of the returned AcquisitionMap
that was actually written (it differs from the normalized image
(-FirstTime, -FirstTime) of an untouched cell) lies in [0, LastTime -
FirstTime] and satisfies finish at least start.  The restriction to written,
in-bounds rows is forced by the counterexample: the code never range-checks
rows, and untouched cells are normalized to -FirstTime. -/
theorem c4_map_bounds (ls : List Str) (r : InfoResult)
    (h : readparsefile ls ACQINFO 0 0 = .ok (.info r))
    (hrows : ∀ l ∈ ls, rowOk r.firsttime r.lasttime l = true) :
    ∀ v s e, r.map.cell v s e ≠ (-r.firsttime, -r.firsttime) →
      0 ≤ (r.map.cell v s e).1 ∧ (r.map.cell v s e).1 ≤ (r.map.cell v s e).2 ∧
      (r.map.cell v s e).2 ≤ r.lasttime - r.firsttime := by
  obtain ⟨st, m, hrun, hacq, hft, hlt, hcells⟩ := readparsefile_info_inv h
  have hQ : ∀ l ∈ ls.filter (fun l => !l.isEmpty), rowOk r.firsttime r.lasttime l = true :=
    fun l hl => hrows l (List.mem_of_mem_filter hl)
  unfold runLines at hrun
  have hinv : ∀ mm, st.acq = some mm →
      ∀ v s e, cellOk r.firsttime r.lasttime (mm.cell v s e) := by
    refine @runList_inv
      (fun s => ∀ mm, s.acq = some mm → ∀ v s e, cellOk r.firsttime r.lasttime (mm.cell v s e))
      (fun l => rowOk r.firsttime r.lasttime l = true) ACQINFO ls.length 0 _ _ _ hQ ?_ ?_ hrun
    · intro s l s' hQl hs hP
      unfold stepLine at hs
      cases he : lineEvent l with
      | assign k v =>
        rw [he] at hs
        simp only [eventStep] at hs
        rw [doAssign_acq hs]
        exact hP
      | dataRow items =>
        rw [he] at hs
        simp only [eventStep, if_pos rfl] at hs
        refine doAcqData_cells hs hP ?_
        intro cs fs h2 h3
        have hq : (match pyInt (items.getD 2 []), pyInt (items.getD 3 []) with
            | some cs, some fs => decide (r.firsttime ≤ cs ∧ cs ≤ fs ∧ fs ≤ r.lasttime)
            | _, _ => false) = true := by
          have hql := hQl
          unfold rowOk at hql
          rw [he] at hql
          exact hql
        rw [h2, h3] at hq
        simpa using hq
      | skip => rw [he] at hs; simp only [eventStep] at hs; cases hs; exact hP
      | malformedAssign => rw [he] at hs; simp only [eventStep] at hs; cases hs
    · intro mm hmm; cases hmm
  have hc := hinv m hacq
  intro v s e hne
  rcases hc v s e with hz | hb
  · exfalso
    apply hne
    rw [hcells v s e, hz, hft]
    simp
  · rw [hcells v s e]
    rw [← hft]
    refine ⟨?_, ?_, ?_⟩ <;> simp <;> omega

/-- A trivial AcqMap, used only as a default value. -/
def emptyMap : AcqMap := ⟨0, 0, 0, fun _ _ _ => (0, 0)⟩

/-- A default InfoResult, used only as the fallback of infoResOf. -/
def defaultInfoResult : InfoResult := ⟨emptyMap, [], 0, 0, false, 0, 0, 1, 0⟩

/-- Extract the InfoResult of a successful INFO parse. -/
def infoResOf (e : Except String ParseOut) : InfoResult :=
  match e with
  | .ok (.info r) => r
  | _ => defaultInfoResult

/-- C4 (witness): the theorem applied to the in-bounds buffer c4good at cell
(0,0,0), whose normalized pair is (0, 5). -/
theorem c4_map_bounds_witness :
    0 ≤ ((infoResOf (readparsefile c4good ACQINFO 0 0)).map.cell 0 0 0).1 ∧
    ((infoResOf (readparsefile c4good ACQINFO 0 0)).map.cell 0 0 0).1 ≤
      ((infoResOf (readparsefile c4good ACQINFO 0 0)).map.cell 0 0 0).2 ∧
    ((infoResOf (readparsefile c4good ACQINFO 0 0)).map.cell 0 0 0).2 ≤
      (infoResOf (readparsefile c4good ACQINFO 0 0)).lasttime -
        (infoResOf (readparsefile c4good ACQINFO 0 0)).firsttime :=
  c4_map_bounds c4good (infoResOf (readparsefile c4good ACQINFO 0 0)) (by rfl)
    (by decide) 0 0 0 (by decide)

end ReadPhysio

namespace ReadPhysio

/-! ### C7: single-sample round-trip of the channel reconstructor -/

/-- Run the line loop over an explicit event list. -/
def runEvents (dt : Str) (total es : Nat) : PState → List LineEvent → Except String PState
  | st, [] => .ok st
  | st, ev :: evs =>
    match eventStep dt total es st ev with
    | .error e => .error e
    | .ok st' => runEvents dt total es st' evs

theorem runList_events {dt : Str} {total es : Nat} :
    ∀ (ls : List Str) (st : PState),
      runList dt total es st ls = runEvents dt total es st (ls.map lineEvent) := by
  intro ls
  induction ls with
  | nil => intro st; rfl
  | cons l rest ih =>
    intro st
    simp only [runList, List.map, runEvents, stepLine]
    cases eventStep dt total es st (lineEvent l) with
    | error e => rfl
    | ok st' => exact ih st'

theorem length_mapIdxFrom {α : Type} (f : Nat → α → α) :
    ∀ (l : List α) (i : Nat), (mapIdxFrom i f l).length = l.length := by
  intro l
  induction l with
  | nil => intro i; rfl
  | cons x xs ih => intro i; simp [mapIdxFrom, ih]

theorem getD_mapIdxFrom {α : Type} (f : Nat → α → α) :
    ∀ (l : List α) (i j : Nat) (d : α), j < l.length →
      (mapIdxFrom i f l).getD j d = f (i + j) (l.getD j d) := by
  intro l
  induction l with
  | nil => intro i j d h; cases h
  | cons x xs ih =>
    intro i j d h
    cases j with
    | zero => simp [mapIdxFrom]
    | succ j' =>
      simp only [mapIdxFrom, List.getD_cons_succ]
      rw [ih (i + 1) j' d (by simpa using h)]
      congr 1
      omega

theorem getD_replicate {α : Type} (a d : α) :
    ∀ (n j : Nat), j < n → (List.replicate n a).getD j d = a := by
  intro n
  induction n with
  | zero => intro j h; cases h
  | succ n' ih =>
    intro j h
    cases j with
    | zero => rfl
    | succ j' => simp only [List.replicate, List.getD_cons_succ]; exact ih j' (by omega)

theorem clampSlice_eval {n : Nat} {i : Int} (h0 : 0 ≤ i) (h1 : i ≤ (n : Int)) :
    clampSlice n i = i.toNat := by
  unfold clampSlice
  rw [if_neg (by omega)]
  rw [min_eq_left (Int.toNat_le.mpr h1)]

end ReadPhysio

namespace ReadPhysio

/-- The traces array after one held sample: nlanes all-zero lanes of length
es, with value v written on [lo, hi) of lane li. -/
def singleWrite (dt : Str) (es li lo hi : Nat) (v : Int) : List (List Int) :=
  mapIdxFrom 0 (fun j lane => if j = li then setRange lane lo hi v else lane)
    (List.replicate (nlanes dt) (List.replicate es (0 : Int)))

theorem doChanData_eval {dt : Str} {es : Nat} {st : PState} {ts ltok vs z1 z2 : Str}
    {t v k : Int} {li : Nat}
    (hts : pyInt ts = some t) (hvs : pyInt vs = some v)
    (hch : st.chan = none) (hst : st.sampletime = some k)
    (hli : chanIdx dt ltok = .ok li) (hk : 0 ≤ k)
    (hft : 0 ≤ t - st.firsttime) (hes : t - st.firsttime + k ≤ (es : Int)) :
    doChanData dt es st [ts, ltok, vs, z1, z2] =
      .ok { st with chan := some (singleWrite dt es li (t - st.firsttime).toNat
        ((t - st.firsttime) + k).toNat v) } := by
  unfold doChanData
  simp only [hts, hvs, hch, hli, hst]
  rw [if_neg (by omega : ¬ k < 0)]
  rw [clampSlice_eval hft (by omega), clampSlice_eval (by omega) hes]
  rw [if_pos (Or.inl (by omega))]
  rfl

end ReadPhysio

namespace ReadPhysio

theorem setRange_length {lane : List Int} {lo hi : Nat} {v : Int} :
    (setRange lane lo hi v).length = lane.length := by
  unfold setRange
  rw [length_mapIdxFrom]

theorem singleWrite_laneGet {dt : Str} {es li lo hi : Nat} {v : Int} {j : Nat}
    (hj : j < nlanes dt) :
    laneGet (singleWrite dt es li lo hi v) j =
      if j = li then setRange (List.replicate es 0) lo hi v else List.replicate es 0 := by
  unfold singleWrite laneGet
  rw [getD_mapIdxFrom _ _ _ _ _ (by simpa using hj), getD_replicate _ _ _ _ hj]
  simp only [Nat.zero_add]

theorem setRange_replicate_getD {es lo hi : Nat} {v : Int} {i : Nat} (hi2 : i < es) :
    (setRange (List.replicate es (0 : Int)) lo hi v).getD i 0 =
      if lo ≤ i ∧ i < hi then v else 0 := by
  unfold setRange
  rw [getD_mapIdxFrom _ _ _ _ _ (by simpa using hi2), getD_replicate _ _ _ _ hi2]
  simp only [Nat.zero_add]

/-- C7 (theorem): for a channel buffer of any of the four channel types whose
event stream is exactly the four assignments UUID, LogVersion (the expected
version), LogDataType (matching), SampleTime = k, followed by a single data
row (t, lane-token, value), with t at least FirstTime and (t - FirstTime) + k
at most expectedsamples, the parse succeeds and the reconstructed traces hold
value on the selected lane at exactly the k consecutive ticks starting at
t - FirstTime, and 0 at every other tick of every lane. -/
theorem c7_single_sample_roundtrip
    (dt : Str) (ls : List Str) (u ks ts ltok vs z1 z2 : Str)
    (k t v : Int) (li : Nat) (ft : Int) (es : Nat)
    (hdt : dt = "ECG".toList ∨ dt = "RESP".toList ∨ dt = "PULS".toList ∨ dt = "EXT".toList)
    (hev : (ls.filter (fun l => !l.isEmpty)).map lineEvent =
      [.assign ("UUID".toList) u, .assign ("LogVersion".toList) expectedversion,
       .assign ("LogDataType".toList) dt, .assign ("SampleTime".toList) ks,
       .dataRow [ts, ltok, vs, z1, z2]])
    (hks : pyInt ks = some k) (hts : pyInt ts = some t) (hvs : pyInt vs = some v)
    (hli : chanIdx dt ltok = .ok li) (hk : 0 ≤ k)
    (hft : ft ≤ t) (hes : t - ft + k ≤ (es : Int)) :
    ∃ T, readparsefile ls dt ft es = .ok (.chan (some T) u) ∧
      T.length = nlanes dt ∧
      (∀ j, j < nlanes dt → (laneGet T j).length = es) ∧
      (∀ j i, j < nlanes dt → i < es → (laneGet T j).getD i 0 =
        if j = li ∧ t - ft ≤ (i : Int) ∧ (i : Int) < t - ft + k then v else 0) := by
  have hne' : ¬ dt = ACQINFO := by
    rcases hdt with h | h | h | h <;> subst h <;> decide
  have hrl : runLines dt ls ft es = runEvents dt ls.length es (initState ft)
      ((ls.filter (fun l => !l.isEmpty)).map lineEvent) := by
    unfold runLines; rw [runList_events]
  rw [hev] at hrl
  have e1 : eventStep dt ls.length es (initState ft) (.assign ("UUID".toList) u) =
      .ok { initState ft with uuid := some u } := rfl
  have e2 : eventStep dt ls.length es { initState ft with uuid := some u }
      (.assign ("LogVersion".toList) expectedversion) =
      .ok { initState ft with uuid := some u } := rfl
  have e3 : eventStep dt ls.length es { initState ft with uuid := some u }
      (.assign ("LogDataType".toList) dt) =
      .ok { initState ft with uuid := some u } := by
    have h1 : eventStep dt ls.length es { initState ft with uuid := some u }
        (.assign ("LogDataType".toList) dt) =
        if dt = dt then .ok { initState ft with uuid := some u }
        else .error "LogDataType mismatch" := rfl
    rw [h1, if_pos rfl]
  have e4 : eventStep dt ls.length es { initState ft with uuid := some u }
      (.assign ("SampleTime".toList) ks) =
      .ok { initState ft with uuid := some u, sampletime := some k } := by
    have h1 : eventStep dt ls.length es { initState ft with uuid := some u }
        (.assign ("SampleTime".toList) ks) =
        if dt = ACQINFO then .error "Invalid SampleTime parameter"
        else match pyInt ks with
          | some n => .ok { initState ft with uuid := some u, sampletime := some n }
          | none => .error "ValueError int" := rfl
    rw [h1, if_neg hne', hks]
  have e5 : eventStep dt ls.length es { initState ft with uuid := some u, sampletime := some k }
      (.dataRow [ts, ltok, vs, z1, z2]) =
      .ok { initState ft with
            uuid := some u
            sampletime := some k
            chan := some (singleWrite dt es li (t - ft).toNat ((t - ft) + k).toNat v) } := by
    have h1 : eventStep dt ls.length es
        { initState ft with uuid := some u, sampletime := some k }
        (.dataRow [ts, ltok, vs, z1, z2]) =
        if dt = ACQINFO then
          doAcqData ls.length { initState ft with uuid := some u, sampletime := some k }
            [ts, ltok, vs, z1, z2]
        else doChanData dt es { initState ft with uuid := some u, sampletime := some k }
          [ts, ltok, vs, z1, z2] := rfl
    rw [h1, if_neg hne']
    exact doChanData_eval hts hvs rfl rfl hli hk
      (show (0 : Int) ≤ t - ft by omega) (show t - ft + k ≤ (es : Int) from hes)
  have hrun : runEvents dt ls.length es (initState ft)
      [.assign ("UUID".toList) u, .assign ("LogVersion".toList) expectedversion,
       .assign ("LogDataType".toList) dt, .assign ("SampleTime".toList) ks,
       .dataRow [ts, ltok, vs, z1, z2]] =
      .ok { initState ft with
            uuid := some u
            sampletime := some k
            chan := some (singleWrite dt es li (t - ft).toNat ((t - ft) + k).toNat v) } := by
    simp only [runEvents, e1, e2, e3, e4, e5]
  refine ⟨singleWrite dt es li (t - ft).toNat ((t - ft) + k).toNat v, ?_, ?_, ?_, ?_⟩
  · have hfin : finishParse dt
        { initState ft with
          uuid := some u
          sampletime := some k
          chan := some (singleWrite dt es li (t - ft).toNat ((t - ft) + k).toNat v) } =
        .ok (.chan (some (singleWrite dt es li (t - ft).toNat ((t - ft) + k).toNat v)) u) := by
      unfold finishParse
      rw [if_neg hne']
    unfold readparsefile
    rw [hrl, hrun]
    exact hfin
  · unfold singleWrite
    rw [length_mapIdxFrom]
    simp
  · intro j hj
    rw [singleWrite_laneGet hj]
    by_cases hjl : j = li
    · rw [if_pos hjl, setRange_length]
      simp
    · rw [if_neg hjl]
      simp
  · intro j i hj hi2
    rw [singleWrite_laneGet hj]
    by_cases hjl : j = li
    · rw [if_pos hjl, setRange_replicate_getD hi2]
      by_cases hr : (t - ft).toNat ≤ i ∧ i < ((t - ft) + k).toNat
      · rw [if_pos hr, if_pos ⟨hjl, by omega, by omega⟩]
      · rw [if_neg hr, if_neg (fun hc => hr ⟨by omega, by omega⟩)]
    · rw [if_neg hjl, getD_replicate _ _ _ _ hi2, if_neg (fun hc => hjl hc.1)]

/-- C7 (witness): the theorem applied to the ECG buffer c7ecg (one sample of
value 7 at raw tick 102 on lane ECG2, SampleTime 3, FirstTime 100,
expectedsamples 18). -/
theorem c7_single_sample_roundtrip_witness :
    ∃ T, readparsefile c7ecg ("ECG".toList) 100 18 = .ok (.chan (some T) ("TEST".toList)) ∧
      T.length = nlanes ("ECG".toList) ∧
      (∀ j, j < nlanes ("ECG".toList) → (laneGet T j).length = 18) ∧
      (∀ j i, j < nlanes ("ECG".toList) → i < 18 → (laneGet T j).getD i 0 =
        if j = 1 ∧ (102 : Int) - 100 ≤ (i : Int) ∧ (i : Int) < 102 - 100 + 3 then 7 else 0) :=
  c7_single_sample_roundtrip ("ECG".toList) c7ecg ("TEST".toList) ("3".toList)
    ("102".toList) ("ECG2".toList) ("7".toList) (['0']) (['0'])
    3 102 7 1 100 18
    (Or.inl rfl) (by decide) (by decide) (by decide) (by decide) rfl
    (by decide) (by decide) (by decide)

end ReadPhysio

namespace ReadPhysio

/-! ### C1 and C9: inversion of a successful readphysio run -/

/-- A default Physio record, used only as the fallback of physioResOf. -/
def defaultPhysio : Physio :=
  ⟨[], emptyMap, [], none, none, none, none, none, none, none, none⟩

/-- Extract the record of a successful readphysio run. -/
def physioResOf (e : Except String Physio) : Physio :=
  match e with
  | .ok r => r
  | _ => defaultPhysio

theorem readphysio_ok_inv {inp : PhysioInput} {r : Physio} (h : readphysio inp = .ok r) :
    ∃ ir pE pR pP pX aE aR aP aX,
      readparsefile inp.info ACQINFO 0 0 = .ok (.info ir) ∧
      ir.firsttime < ir.lasttime ∧
      procChannel ("ECG".toList) inp.ecg ir.uuid ir.firsttime (esOf ir) = .ok pE ∧
      procChannel ("RESP".toList) inp.resp ir.uuid ir.firsttime (esOf ir) = .ok pR ∧
      procChannel ("PULS".toList) inp.puls ir.uuid ir.firsttime (esOf ir) = .ok pP ∧
      procChannel ("EXT".toList) inp.ext ir.uuid ir.firsttime (esOf ir) = .ok pX ∧
      chanEntries pE = .ok aE ∧ chanEntries pR = .ok aR ∧
      chanEntries pP = .ok aP ∧ chanEntries pX = .ok aX ∧
      r.ecg1 = laneEntry aE 0 ∧ r.ecg2 = laneEntry aE 1 ∧
      r.ecg3 = laneEntry aE 2 ∧ r.ecg4 = laneEntry aE 3 ∧
      r.resp = laneEntry aR 0 ∧ r.puls = laneEntry aP 0 ∧
      r.ext1 = laneEntry aX 0 ∧ r.ext2 = laneEntry aX 1 := by
  unfold readphysio at h
  repeat' split at h
  all_goals try cases h
  refine ⟨_, _, _, _, _, _, _, _, _, by assumption, by omega, by assumption, by assumption,
    by assumption, by assumption, by assumption, by assumption, by assumption, by assumption,
    rfl, rfl, rfl, rfl, rfl, rfl, rfl, rfl⟩

end ReadPhysio

namespace ReadPhysio

/-- C9 (theorem): for every present channel, if the channel buffer parses to
a UUID different from the INFO UUID, the whole readphysio call fails and no
result record is returned. -/
theorem readphysio_uuid_mismatch (inp : PhysioInput) (ir : InfoResult) (c : SrcChan)
    (b : List Str) (tr : Option (List (List Int))) (u2 : Str)
    (hi : readparsefile inp.info ACQINFO 0 0 = .ok (.info ir))
    (hb : chanBufC inp c = some b)
    (hp : readparsefile b (chanNameC c) ir.firsttime (esOf ir) = .ok (.chan tr u2))
    (hne : u2 ≠ ir.uuid) :
    exOk (readphysio inp) = false := by
  cases hr : readphysio inp with
  | error e => rfl
  | ok r =>
    exfalso
    obtain ⟨ir', pE, pR, pP, pX, aE, aR, aP, aX, hi', hlt, hE, hR, hP2, hX, _, _, _, _, _,
      _, _, _, _, _, _, _⟩ := readphysio_ok_inv hr
    rw [hi] at hi'
    cases hi'
    cases c with
    | ecg =>
      simp only [chanBufC] at hb
      simp only [chanNameC] at hp
      unfold procChannel at hE
      simp only [hb, hp] at hE
      rw [if_pos (Ne.symm hne)] at hE
      cases hE
    | resp =>
      simp only [chanBufC] at hb
      simp only [chanNameC] at hp
      unfold procChannel at hR
      simp only [hb, hp] at hR
      rw [if_pos (Ne.symm hne)] at hR
      cases hR
    | puls =>
      simp only [chanBufC] at hb
      simp only [chanNameC] at hp
      unfold procChannel at hP2
      simp only [hb, hp] at hP2
      rw [if_pos (Ne.symm hne)] at hP2
      cases hP2
    | ext =>
      simp only [chanBufC] at hb
      simp only [chanNameC] at hp
      unfold procChannel at hX
      simp only [hb, hp] at hX
      rw [if_pos (Ne.symm hne)] at hX
      cases hX

/-- Extract the traces of a successful channel parse. -/
def chanTracesOf (e : Except String ParseOut) : Option (List (List Int)) :=
  match e with
  | .ok (.chan tr _) => tr
  | _ => none

/-- C9 (witness): the theorem applied to c9inp, whose ECG buffer carries the
UUID OTHER while the INFO buffer carries TEST. -/
theorem readphysio_uuid_mismatch_witness : exOk (readphysio c9inp) = false :=
  readphysio_uuid_mismatch c9inp (infoResOf (readparsefile c9inp.info ACQINFO 0 0))
    SrcChan.ecg c9ecg
    (chanTracesOf (readparsefile c9ecg ("ECG".toList)
      (infoResOf (readparsefile c9inp.info ACQINFO 0 0)).firsttime
      (esOf (infoResOf (readparsefile c9inp.info ACQINFO 0 0)))))
    ("OTHER".toList) rfl rfl rfl (by decide)

end ReadPhysio

namespace ReadPhysio

theorem any_of_laneSum {T : List (List Int)} {i : Nat} (h : (laneGet T i).sum ≠ 0) :
    T.any (fun lane => lane.any (fun x => x ≠ 0)) = true := by
  have hex : ∃ x ∈ laneGet T i, x ≠ 0 := by
    by_contra hall
    push_neg at hall
    exact h (List.sum_eq_zero hall)
  obtain ⟨x, hxmem, hx0⟩ := hex
  have hmem : laneGet T i ∈ T := by
    by_cases hlen : i < T.length
    · unfold laneGet
      rw [List.getD_eq_getElem _ _ hlen]
      exact List.getElem_mem hlen
    · exfalso
      have hnil : laneGet T i = [] := by
        unfold laneGet
        exact List.getD_eq_default _ _ (by omega)
      rw [hnil] at hxmem
      cases hxmem
  rw [List.any_eq_true]
  refine ⟨laneGet T i, hmem, ?_⟩
  rw [List.any_eq_true]
  exact ⟨x, hxmem, by simpa using hx0⟩

/-- One channel of the pruning pipeline: the lane entry is present exactly
when the channel buffer was present, parsed to actual traces, and the lane
sum is nonzero. -/
theorem procChannel_lane_iff {ir : InfoResult} {dtname : Str} {buf : Option (List Str)}
    {p : Option (Option (List (List Int)))} {a : Option (List (List Int))} {i : Nat}
    (hpc : procChannel dtname buf ir.uuid ir.firsttime (esOf ir) = .ok p)
    (hce : chanEntries p = .ok a) :
    (laneEntry a i).isSome = true ↔
      ∃ b T u2, buf = some b ∧
        readparsefile b dtname ir.firsttime (esOf ir) = .ok (.chan (some T) u2) ∧
        (laneGet T i).sum ≠ 0 := by
  cases buf with
  | none =>
    have hpc2 : (Except.ok none : Except String (Option (Option (List (List Int))))) =
        .ok p := hpc
    cases hpc2
    have hce2 : (Except.ok none : Except String (Option (List (List Int)))) = .ok a := hce
    cases hce2
    simp [laneEntry]
  | some bb =>
    cases hq : readparsefile bb dtname ir.firsttime (esOf ir) with
    | error e =>
      simp only [procChannel, hq] at hpc
      cases hpc
    | ok o =>
      cases o with
      | info rr =>
        simp only [procChannel, hq] at hpc
        cases hpc
      | chan tr u2 =>
        simp only [procChannel, hq] at hpc
        split at hpc
        · cases hpc
        · cases hpc
          cases tr with
          | none =>
            have hce2 : (Except.error "AttributeError NoneType any" :
                Except String (Option (List (List Int)))) = .ok a := hce
            cases hce2
          | some T0 =>
            have hce2 : (Except.ok (if T0.any (fun lane => lane.any (fun x => x ≠ 0))
                then some T0 else none) : Except String (Option (List (List Int)))) =
                .ok a := hce
            cases hce2
            constructor
            · intro hsome
              refine ⟨bb, T0, u2, rfl, hq, ?_⟩
              by_cases hz : T0.any (fun lane => lane.any (fun x => x ≠ 0)) = true
              · rw [if_pos hz] at hsome
                have hsome2 : ((if (laneGet T0 i).sum ≠ 0 then some (laneGet T0 i)
                    else none).isSome) = true := hsome
                by_cases hs : (laneGet T0 i).sum ≠ 0
                · exact hs
                · rw [if_neg hs] at hsome2; simp at hsome2
              · rw [if_neg hz] at hsome; simp [laneEntry] at hsome
            · rintro ⟨b2, T2, u3, hbb, hq2, hsum⟩
              cases hbb
              rw [hq] at hq2
              cases hq2
              rw [if_pos (any_of_laneSum hsum)]
              show ((if (laneGet T0 i).sum ≠ 0 then some (laneGet T0 i)
                else none).isSome) = true
              rw [if_pos hsum]
              rfl

/-- C1 (amended theorem): in every successful readphysio run, a channel lane
key appears in the result record if and only if its source channel buffer was
present and the SUM of the samples of its reconstructed lane is nonzero (the
pruning guard tests the truthiness of sum(lane), so a lane whose nonzero
samples cancel is omitted - the counterexample; an all-zero lane, such as an
EXT buffer whose rows all carry value 0, is omitted as before). -/
theorem readphysio_lane_iff (inp : PhysioInput) (r : Physio) (ir : InfoResult) (x : Lane)
    (hi : readparsefile inp.info ACQINFO 0 0 = .ok (.info ir))
    (hrun : readphysio inp = .ok r) :
    (resultLane r x).isSome = true ↔
      ∃ b T u2, chanBufC inp (laneChan x) = some b ∧
        readparsefile b (chanNameC (laneChan x)) ir.firsttime (esOf ir) =
          .ok (.chan (some T) u2) ∧
        (laneGet T (laneIdx x)).sum ≠ 0 := by
  obtain ⟨ir', pE, pR, pP, pX, aE, aR, aP, aX, hi', hlt, hE, hR, hP2, hX, haE, haR, haP, haX,
    h1, h2, h3, h4, h5, h6, h7, h8⟩ := readphysio_ok_inv hrun
  rw [hi] at hi'
  cases hi'
  cases x with
  | ecg1 =>
    rw [show resultLane r Lane.ecg1 = r.ecg1 from rfl, h1]
    exact procChannel_lane_iff hE haE
  | ecg2 =>
    rw [show resultLane r Lane.ecg2 = r.ecg2 from rfl, h2]
    exact procChannel_lane_iff hE haE
  | ecg3 =>
    rw [show resultLane r Lane.ecg3 = r.ecg3 from rfl, h3]
    exact procChannel_lane_iff hE haE
  | ecg4 =>
    rw [show resultLane r Lane.ecg4 = r.ecg4 from rfl, h4]
    exact procChannel_lane_iff hE haE
  | resp =>
    rw [show resultLane r Lane.resp = r.resp from rfl, h5]
    exact procChannel_lane_iff hR haR
  | puls =>
    rw [show resultLane r Lane.puls = r.puls from rfl, h6]
    exact procChannel_lane_iff hP2 haP
  | ext1 =>
    rw [show resultLane r Lane.ext1 = r.ext1 from rfl, h7]
    exact procChannel_lane_iff hX haX
  | ext2 =>
    rw [show resultLane r Lane.ext2 = r.ext2 from rfl, h8]
    exact procChannel_lane_iff hX haX

/-- C1 (witness): the theorem applied to the run on c1inp and the PULS lane. -/
theorem readphysio_lane_iff_witness :
    (resultLane (physioResOf (readphysio c1inp)) Lane.puls).isSome = true ↔
      ∃ b T u2, chanBufC c1inp (laneChan Lane.puls) = some b ∧
        readparsefile b (chanNameC (laneChan Lane.puls))
          (infoResOf (readparsefile c1inp.info ACQINFO 0 0)).firsttime
          (esOf (infoResOf (readparsefile c1inp.info ACQINFO 0 0))) =
          .ok (.chan (some T) u2) ∧
        (laneGet T (laneIdx Lane.puls)).sum ≠ 0 :=
  readphysio_lane_iff c1inp (physioResOf (readphysio c1inp))
    (infoResOf (readparsefile c1inp.info ACQINFO 0 0)) Lane.puls rfl rfl

end ReadPhysio
